import Mathlib

/-!
Shallow embedding of the game-server authentication and resource-ownership
authorization pipeline of the `chatgpt_proxy` package (RS2ChatGPTBots).

The embedding follows `chatgpt_proxy/auth/auth.py`, `chatgpt_proxy/db/queries.py`,
`chatgpt_proxy/steam/steam.py`, `chatgpt_proxy/utils/utils.py` and
`chatgpt_proxy/app.py`.  External collaborators (the PyJWT library, the SHA-256
hash, the HTTP client, the Steam Web API and the PostgreSQL store) are modelled
as explicit oracle inputs; Python exceptions are modelled with `Except`;
IPv4 addresses are modelled as their 32-bit numeric value (`Nat`); timestamps
are modelled as integer seconds.
-/

namespace ChatGPTProxy

/-- Minimal model of a JSON-decoded Python value, used for the body of a Steam
Web API response (`resp.json()`). -/
inductive Json where
  | null : Json
  | bool : Bool → Json
  | num : Int → Json
  | str : String → Json
  | arr : List Json → Json
  | obj : List (String × Json) → Json

/-- Python truthiness of a JSON-decoded value, as used by the source in the
`if not servers:` check in `is_real_game_server`. -/
def pyTruthy : Json → Bool
  | .null => false
  | .bool b => b
  | .num n => n != 0
  | .str s => s != ""
  | .arr xs => !xs.isEmpty
  | .obj fs => !fs.isEmpty

/-- Subscript lookup `j[k]`.  In Python, indexing a non-dict with a string or a
missing key raises (TypeError/KeyError); both are modelled as `none`. -/
def Json.getKey : Json → String → Option Json
  | .obj fs, k => fs.lookup k
  | _, _ => none

/-- Python exceptions that can escape the modelled code paths. -/
inductive PyErr where
  | valueError
  | addressValueError
  | transportError
  | httpStatusError
  | jsonDecodeError
  | keyError
deriving DecidableEq, Repr

/-- Behaviour of the external Steam Web API listing service for one outbound
`web_api_request` call: whether the HTTP transport raised, the HTTP status
code otherwise, and the JSON-decoded body (`none` models a body that
`resp.json()` fails to decode). -/
structure SteamEnv where
  transportError : Bool
  status : Nat
  jsonBody : Option Json

/-- Body of `is_real_game_server` (auth.py lines 103-124), before the
enclosing `except Exception` handler: issue the outbound request
(`web_api_request`, which may raise a transport error), call
`resp.raise_for_status()` (httpx raises for every non-2xx status), decode
`resp.json()["response"]["servers"]`, and return the truthiness of `servers`. -/
def steam_body (env : SteamEnv) : Except PyErr Bool :=
  if env.transportError then .error .transportError
  else if env.status < 200 ∨ 300 ≤ env.status then .error .httpStatusError
  else
    match env.jsonBody with
    | none => .error .jsonDecodeError
    | some j =>
      match j.getKey "response" with
      | none => .error .keyError
      | some r =>
        match r.getKey "servers" with
        | none => .error .keyError
        | some servers => .ok (pyTruthy servers)

/-- Model of `is_real_game_server` (auth.py lines 96-128): the whole body is
wrapped in `try ... except Exception: return False`, so every exception of the
body is converted into a negative result.  The caching decorator present in
the source is commented out (auth.py lines 81-95), so the function itself
performs no cache lookups or insertions. -/
def is_real_game_server (env : SteamEnv) : Bool :=
  match steam_body env with
  | .ok b => b
  | .error _ => false

/-- Value found under `response.servers` in the response body, when the body
decodes and both keys are present. -/
def extract_servers (env : SteamEnv) : Option Json :=
  env.jsonBody.bind (fun j => (j.getKey "response").bind (fun r => r.getKey "servers"))

/-- Instrumented outcome of one `is_real_game_server` call: its boolean result
and the number of outbound network requests the call performed. -/
structure LivenessOutcome where
  result : Bool
  outboundRequests : Nat
deriving DecidableEq, Repr

/-- Instrumented run of `is_real_game_server`: the body unconditionally awaits
one `web_api_request` (auth.py line 106), and — the caching decorator being
commented out — no invocation is ever answered from a cache, so every call
performs exactly one outbound request. -/
def is_real_game_server_run (env : SteamEnv) : LivenessOutcome :=
  { result := is_real_game_server env, outboundRequests := 1 }

/-- Total number of outbound network requests performed by a sequence of
`is_real_game_server` calls. -/
def liveness_check_sequence (envs : List SteamEnv) : Nat :=
  (envs.map (fun e => (is_real_game_server_run e).outboundRequests)).sum

/-- Cache TTL constant `ttl_is_real_game_server` (auth.py line 60):
`timedelta(minutes=60).total_seconds()`, in seconds.  It is referenced only by
the commented-out caching decorator. -/
def ttl_is_real_game_server : Nat := 60 * 60

/-- Python `str.split(sep)` with a single-character separator, over the
character list of the string. -/
def splitOnChar (sep : Char) : List Char → List (List Char)
  | [] => [[]]
  | c :: rest =>
    match splitOnChar sep rest with
    | [] => [[c]]
    | cur :: parts => if c = sep then [] :: cur :: parts else (c :: cur) :: parts

/-- Tuple unpacking `a, p = xs`: Python raises ValueError unless `xs` has
exactly two items. -/
def unpack2 {α : Type} : List α → Option (α × α)
  | [a, p] => some (a, p)
  | _ => none

/-- Numeric value of a list of decimal digits. -/
def decDigitsToNat (cs : List Char) : Nat :=
  cs.foldl (fun n c => n * 10 + (c.toNat - Char.toNat '0')) 0

/-- One dotted-quad octet as accepted by Python `ipaddress.IPv4Address`:
one to three decimal digits, no superfluous leading zero, value at most 255. -/
def parseOctet (cs : List Char) : Option Nat :=
  if cs.isEmpty ∨ 3 < cs.length then none
  else if ¬ cs.all Char.isDigit then none
  else if 1 < cs.length ∧ cs.head? = some '0' then none
  else if decDigitsToNat cs ≤ 255 then some (decDigitsToNat cs) else none

/-- Model of `ipaddress.IPv4Address(s)` on a string input: parse a dotted quad
into its 32-bit numeric value; `AddressValueError` is modelled as `none`. -/
def ipv4_address (s : List Char) : Option Nat :=
  match splitOnChar '.' s with
  | [o1, o2, o3, o4] => do
    let a ← parseOctet o1
    let b ← parseOctet o2
    let c ← parseOctet o3
    let d ← parseOctet o4
    pure (((a * 256 + b) * 256 + c) * 256 + d)
  | _ => none

/-- Nonempty all-digit run parsed to a number, else `none`. -/
def decNat? (cs : List Char) : Option Nat :=
  if cs.isEmpty ∨ ¬ cs.all Char.isDigit then none else some (decDigitsToNat cs)

/-- Model of Python `int(s)` on a string input: surrounding whitespace is
stripped, an optional sign precedes decimal digits (digit-group underscores
are not modelled); `ValueError` is modelled as `none`. -/
def pyInt (s : List Char) : Option Int :=
  let t := ((s.dropWhile Char.isWhitespace).reverse.dropWhile Char.isWhitespace).reverse
  match t with
  | '-' :: rest => (decNat? rest).map (fun n => -(n : Int))
  | '+' :: rest => (decNat? rest).map (fun n => (n : Int))
  | _ => (decNat? t).map (fun n => (n : Int))

/-- Parsing of a token subject claim, exactly as performed inline by
`check_token` (auth.py lines 204-208): `a, p = sub.split(":")`, then
`ipaddress.IPv4Address(a)`, then `int(p)`.  The error constructor records
which statement raises. -/
def parse_token_subject (sub : String) : Except PyErr (Nat × Int) :=
  match unpack2 (splitOnChar ':' sub.data) with
  | none => .error .valueError
  | some (a, p) =>
    match ipv4_address a with
    | none => .error .addressValueError
    | some addr =>
      match pyInt p with
      | none => .error .valueError
      | some port => .ok (addr, port)

/-- Row of the `game_server_api_key` table (credential store), following
`queries.insert_game_server_api_key`: timestamps as integer seconds, the
stored hash as a byte list. -/
structure GameServerApiKey where
  created_at : Int
  expires_at : Int
  api_key_hash : List Nat
  game_server_address : Nat
  game_server_port : Int
  name : Option String
deriving DecidableEq, Repr

/-- Model of `queries.select_game_server_api_key` (queries.py lines 192-208):
`fetchrow` of `SELECT * WHERE game_server_address = $1 AND game_server_port = $2`
with no ORDER BY, modelled as the first matching row of the table. -/
def select_game_server_api_key (db : List GameServerApiKey) (addr : Nat)
    (port : Int) : Option GameServerApiKey :=
  db.find? (fun r => r.game_server_address == addr && r.game_server_port == port)

/-- Model of `secrets.compare_digest` on two byte strings: the comparison is
constant-time in the source; the value computed is equality. -/
def compare_digest (a b : List Nat) : Bool := a == b

/-- Model of `auth.validate_db_token` (auth.py lines 155-183): look up the
stored credential for the claimed (address, port); return False when no row
exists or when the stored hash differs from the hash of the presented token. -/
def validate_db_token (request_token_hash : List Nat) (addr : Nat) (port : Int)
    (db : List GameServerApiKey) : Bool :=
  match select_game_server_api_key db addr port with
  | none => false
  | some api_key =>
    if ¬ compare_digest request_token_hash api_key.api_key_hash then false
    else true

/-- Request-and-collaborator environment of one `check_token` call.
`decodeResult` is the outcome of the external `jwt.decode` call (signature,
expiry, issuer, audience and required-claim checks; on success it yields the
`sub` claim); `client_addr` is the IPv4 value returned by `get_remote_addr`;
`sha256` is the hash oracle; `db` is the credential table;
`steam_web_api_key` is the module-level `_steam_web_api_key`. -/
structure CheckTokenEnv where
  token : Option String
  decodeResult : Except Unit String
  client_addr : Nat
  sha256 : String → List Nat
  db : List GameServerApiKey
  steam_web_api_key : Option String
  steamEnv : SteamEnv

/-- Observable outcome of one `check_token` call: its return value or escaped
exception, the number of outbound liveness calls it made, whether the
missing-API-key warning was logged, and the Verified Identity attached to
`request.ctx` (`jwt_game_server_address`, `jwt_game_server_port`). -/
structure CheckTokenOutcome where
  result : Except PyErr Bool
  livenessCalls : Nat
  warnedNoApiKey : Bool
  ctx : Option (Nat × Int)

/-- Python falsiness of `request.token` (`if not request.token:`): absent or
empty. -/
def pyFalsyToken : Option String → Bool
  | none => true
  | some s => s.data.isEmpty

/-- Model of `auth.check_token` (auth.py lines 186-246).  The try/except
around `jwt.decode` catches only `PyJWTError`; the subject parsing below it
is not guarded, so its `ValueError`/`AddressValueError` escapes the function
(modelled as `.error`). -/
def check_token (env : CheckTokenEnv) : CheckTokenOutcome :=
  if pyFalsyToken env.token then
    { result := .ok false, livenessCalls := 0, warnedNoApiKey := false, ctx := none }
  else
    match env.decodeResult with
    | .error _ =>
      { result := .ok false, livenessCalls := 0, warnedNoApiKey := false, ctx := none }
    | .ok sub =>
      match parse_token_subject sub with
      | .error e =>
        { result := .error e, livenessCalls := 0, warnedNoApiKey := false, ctx := none }
      | .ok (addr, port) =>
        if env.client_addr ≠ addr then
          { result := .ok false, livenessCalls := 0, warnedNoApiKey := false, ctx := none }
        else
          let req_token_hash := env.sha256 ((env.token).getD "")
          if ¬ validate_db_token req_token_hash addr port env.db then
            { result := .ok false, livenessCalls := 0, warnedNoApiKey := false, ctx := none }
          else
            match env.steam_web_api_key with
            | none =>
              { result := .ok true, livenessCalls := 0, warnedNoApiKey := true,
                ctx := some (addr, port) }
            | some _ =>
              if is_real_game_server env.steamEnv then
                { result := .ok true, livenessCalls := 1, warnedNoApiKey := false,
                  ctx := some (addr, port) }
              else
                { result := .ok false, livenessCalls := 1, warnedNoApiKey := false,
                  ctx := none }

/-- Model of a `sanic.HTTPResponse`. -/
structure HTTPResponse where
  body : String
  status : Nat
deriving DecidableEq, Repr

/-- Response `sanic.HTTPResponse("Unauthorized.", status=HTTPStatus.UNAUTHORIZED)`,
also the body/status of `sanic.text("Unauthorized.", status=401)`. -/
def unauthorizedResponse : HTTPResponse := { body := "Unauthorized.", status := 401 }

/-- Response `sanic.HTTPResponse(status=HTTPStatus.NOT_FOUND)` (empty body). -/
def notFoundResponse : HTTPResponse := { body := "", status := 404 }

/-- Row of the `game` table, following `models.Game`. -/
structure Game where
  id : String
  level : String
  start_time : Int
  game_server_address : Nat
  game_server_port : Int
  stop_time : Option Int
  openai_previous_response_id : Option String
deriving DecidableEq, Repr

/-- Model of `queries.select_game` (queries.py lines 112-130): `fetchrow` of
`SELECT * FROM game WHERE id = $1`, modelled as the first matching row. -/
def select_game (games : List Game) (game_id : String) : Option Game :=
  games.find? (fun g => g.id == game_id)

/-- Model of the `auth.check_and_inject_game` decorator (auth.py lines
249-299): reject with Unauthorized when the request context carries no
verified identity; load the game by id, answering NotFound when absent;
reject with Unauthorized on an address or port mismatch; otherwise attach the
game and invoke the wrapped handler, propagating its response unchanged. -/
def check_and_inject_game (handler : Game → HTTPResponse)
    (jwt_game_server_address : Option Nat) (jwt_game_server_port : Option Int)
    (games : List Game) (game_id : String) : HTTPResponse :=
  match jwt_game_server_address, jwt_game_server_port with
  | some ctxAddr, some ctxPort =>
    match select_game games game_id with
    | none => notFoundResponse
    | some game =>
      if game.game_server_address ≠ ctxAddr then unauthorizedResponse
      else if game.game_server_port ≠ ctxPort then unauthorizedResponse
      else handler game
  | _, _ => unauthorizedResponse

/-- Model of the `api_v1_on_request` middleware (app.py lines 845-851):
await `check_token`; on False answer the uniform Unauthorized text response;
on True return None so the request proceeds; an exception escaping
`check_token` escapes the middleware. -/
def api_v1_on_request (env : CheckTokenEnv) : Except PyErr (Option HTTPResponse) :=
  match (check_token env).result with
  | .error e => .error e
  | .ok true => .ok none
  | .ok false => .ok (some unauthorizedResponse)

/-- Model of `queries.delete_old_api_keys` (queries.py lines 266-279):
`DELETE FROM game_server_api_key WHERE NOW() > (expires_at + $1)`.  Returns
the remaining table and the deleted-row count reported in the command tag. -/
def delete_old_api_keys (db : List GameServerApiKey) (now leeway : Int) :
    List GameServerApiKey × Nat :=
  ((db.filter (fun r => !(decide (now > r.expires_at + leeway)))),
   (db.filter (fun r => decide (now > r.expires_at + leeway))).length)

/-- Leeway `api_key_deletion_leeway` used by the `db_maintenance` sweep
(app.py line 240): `timedelta(minutes=5)`, in seconds. -/
def api_key_deletion_leeway : Int := 5 * 60

/-! Concrete fixtures used by witnesses and counterexamples.  The address
2130706433 is 127.0.0.1; 167772169 is 10.0.0.9. -/

/-- SHA-256 digest value used by the fixtures for the presented token. -/
def fixtureHash : List Nat := [1, 2, 3]

/-- Credential table holding one row for 127.0.0.1:7777 with `fixtureHash`. -/
def fixtureDb : List GameServerApiKey :=
  [{ created_at := 0, expires_at := 1000, api_key_hash := fixtureHash,
     game_server_address := 2130706433, game_server_port := 7777, name := none }]

/-- Steam listing response with one server entry under `response.servers`. -/
def fixtureSteamPos : SteamEnv :=
  { transportError := false, status := 200,
    jsonBody := some (.obj [("response",
      .obj [("servers", .arr [.obj [("name", .str "srv")]])])]) }

/-- Request environment that passes every authentication step: token present,
`jwt.decode` succeeds with subject 127.0.0.1:7777, source address 127.0.0.1,
stored credential digest matching, liveness positive. -/
def fixtureEnvOk : CheckTokenEnv :=
  { token := some "tok", decodeResult := .ok "127.0.0.1:7777",
    client_addr := 2130706433, sha256 := fun _ => fixtureHash, db := fixtureDb,
    steam_web_api_key := some "steamkey", steamEnv := fixtureSteamPos }

/-! Claims. -/

/-- C1: the claim says that for every validly signed, unexpired token whose
subject claim cannot be parsed as address:port, the token-validation step of
`check_token` returns False rather than raising.  The code contradicts this:
the subject parsing (auth.py lines 204-208) lies outside the try/except that
guards only `jwt.decode`, so on each of the three malformed-subject shapes
(wrong claim count, bad address shape, non-integer port) `check_token`
raises an uncaught exception instead of returning False.  This theorem
evaluates the embedded `check_token` at the three failing inputs. -/
theorem check_token_crashes_on_malformed_subject :
    (check_token { fixtureEnvOk with decodeResult := .ok "127.0.0.1" }).result
      = .error .valueError ∧
    (check_token { fixtureEnvOk with decodeResult := .ok "999.0.0.1:7777" }).result
      = .error .addressValueError ∧
    (check_token { fixtureEnvOk with decodeResult := .ok "127.0.0.1:xyz" }).result
      = .error .valueError :=
  ⟨rfl, rfl, rfl⟩

/-- C4: for every request whose physical source IPv4 address differs from the
address parsed out of the token subject, `check_token` returns False, whatever
the token, credential store and liveness service otherwise look like; the
comparison is exact equality on the parsed address value. -/
theorem check_token_rejects_source_mismatch (env : CheckTokenEnv) (sub : String)
    (addr : Nat) (port : Int)
    (htok : pyFalsyToken env.token = false)
    (hdec : env.decodeResult = .ok sub)
    (hsub : parse_token_subject sub = .ok (addr, port))
    (hne : env.client_addr ≠ addr) :
    (check_token env).result = .ok false := by
  simp only [check_token, htok, hdec, hsub, Bool.false_eq_true, if_false]
  rw [if_pos hne]

/-- C4 witness: the all-valid fixture request arriving from 10.0.0.9 instead
of the claimed 127.0.0.1 is rejected. -/
theorem check_token_rejects_source_mismatch_witness :
    (check_token { fixtureEnvOk with client_addr := 167772169 }).result = .ok false :=
  check_token_rejects_source_mismatch
    { fixtureEnvOk with client_addr := 167772169 }
    "127.0.0.1:7777" 2130706433 7777 rfl rfl rfl (by decide)

/-- C5: for every (address, port) with no stored credential row,
`validate_db_token` returns False, and a `check_token` call reaching the
secret-verification step with that (address, port) rejects, regardless of the
validity of the presented token. -/
theorem auth_rejects_without_stored_credential (env : CheckTokenEnv) (sub : String)
    (addr : Nat) (port : Int)
    (htok : pyFalsyToken env.token = false)
    (hdec : env.decodeResult = .ok sub)
    (hsub : parse_token_subject sub = .ok (addr, port))
    (hcli : env.client_addr = addr)
    (hnone : select_game_server_api_key env.db addr port = none) :
    validate_db_token (env.sha256 (env.token.getD "")) addr port env.db = false ∧
    (check_token env).result = .ok false := by
  have hval : validate_db_token (env.sha256 (env.token.getD "")) addr port env.db = false := by
    simp only [validate_db_token, hnone]
  refine ⟨hval, ?_⟩
  simp only [check_token, htok, hdec, hsub, Bool.false_eq_true, if_false, hcli,
    ne_eq, not_true_eq_false, hval, not_false_eq_true, if_true]

/-- C5 witness: with an empty credential table, the otherwise-valid fixture
request is rejected by the secret-verification step. -/
theorem auth_rejects_without_stored_credential_witness :
    validate_db_token ((fun _ => fixtureHash) "tok") 2130706433 7777 [] = false ∧
    (check_token { fixtureEnvOk with db := [] }).result = .ok false :=
  auth_rejects_without_stored_credential { fixtureEnvOk with db := [] }
    "127.0.0.1:7777" 2130706433 7777 rfl rfl rfl rfl rfl

/-- C2 counterexample: the claim says that two liveness checks for the same
(address, port) within the TTL window after a first positive result perform at
most one outbound network request in total.  The caching decorator on
`is_real_game_server` is commented out in the source (auth.py lines 81-95),
so the second call 60 seconds after a first positive one still performs its
own outbound request: two calls make two requests. -/
theorem liveness_two_calls_two_requests :
    ¬ ((is_real_game_server_run fixtureSteamPos).result = true →
       60 ≤ ttl_is_real_game_server →
       liveness_check_sequence [fixtureSteamPos, fixtureSteamPos] ≤ 1) := by
  intro h
  exact absurd (h rfl (by decide)) (by decide)

/-- C2 amended: with the caching decorator commented out, every
`is_real_game_server` call performs exactly one outbound network request,
whatever the service behaviour and timing, so any two calls perform exactly
two outbound requests (and a call after TTL expiry likewise performs a new
one). -/
theorem liveness_every_call_one_outbound_request (env e1 e2 : SteamEnv) :
    (is_real_game_server_run env).outboundRequests = 1 ∧
    liveness_check_sequence [e1, e2] = 2 :=
  ⟨rfl, rfl⟩

/-- C3: for a request carrying a verified identity (a1, p1), the ownership
guard answers NotFound when no game has the target id; answers Unauthorized —
without invoking the wrapped handler — when the owning address or port of the
loaded game differs from (a1, p1); and when both match it invokes the handler
on the loaded game and propagates its response unchanged. -/
theorem check_and_inject_game_spec (handler : Game → HTTPResponse)
    (a1 : Nat) (p1 : Int) (games : List Game) (game_id : String) :
    check_and_inject_game handler (some a1) (some p1) games game_id =
      match select_game games game_id with
      | none => notFoundResponse
      | some g =>
        if g.game_server_address = a1 ∧ g.game_server_port = p1 then handler g
        else unauthorizedResponse := by
  unfold check_and_inject_game
  cases hsel : select_game games game_id with
  | none => rfl
  | some g =>
    by_cases ha : g.game_server_address = a1 <;>
      by_cases hp : g.game_server_port = p1 <;>
      simp [ha, hp]

/-- C6: the expiry sweep keeps exactly the rows whose `expires_at + leeway`
is not in the past, reports as removed exactly the complement of what it
keeps, and on the concrete scenario (leeway five minutes, one row expired ten
minutes ago, one expired two minutes ago) removes the former, retains the
latter, and reports one removed row. -/
theorem delete_old_api_keys_spec (db : List GameServerApiKey) (now leeway : Int) :
    (∀ r : GameServerApiKey,
      r ∈ (delete_old_api_keys db now leeway).1 ↔
        r ∈ db ∧ ¬ now > r.expires_at + leeway) ∧
    (delete_old_api_keys db now leeway).2 + (delete_old_api_keys db now leeway).1.length
      = db.length ∧
    delete_old_api_keys
        [{ created_at := -7200, expires_at := -600, api_key_hash := [9],
           game_server_address := 1, game_server_port := 1, name := none },
         { created_at := -7200, expires_at := -120, api_key_hash := [9],
           game_server_address := 2, game_server_port := 2, name := none }]
        0 api_key_deletion_leeway
      = ([{ created_at := -7200, expires_at := -120, api_key_hash := [9],
            game_server_address := 2, game_server_port := 2, name := none }], 1) := by
  refine ⟨?_, ?_, by decide⟩
  · intro r
    simp [delete_old_api_keys, List.mem_filter]
  · simp only [delete_old_api_keys]
    exact (List.length_eq_length_filter_add
      (fun (r : GameServerApiKey) => decide (now > r.expires_at + leeway))).symm

/-- C6 witness: the concrete sweep scenario, obtained from the theorem. -/
theorem delete_old_api_keys_spec_witness :
    delete_old_api_keys
        [{ created_at := -7200, expires_at := -600, api_key_hash := [9],
           game_server_address := 1, game_server_port := 1, name := none },
         { created_at := -7200, expires_at := -120, api_key_hash := [9],
           game_server_address := 2, game_server_port := 2, name := none }]
        0 api_key_deletion_leeway
      = ([{ created_at := -7200, expires_at := -120, api_key_hash := [9],
            game_server_address := 2, game_server_port := 2, name := none }], 1) :=
  (delete_old_api_keys_spec [] 0 0).2.2

/-- Steam listing response whose `response.servers` value is the number 42:
a successful response of unexpected shape with no server entries. -/
def truthyServersEnv : SteamEnv :=
  { transportError := false, status := 200,
    jsonBody := some (.obj [("response", .obj [("servers", .num 42)])]) }

/-- Positive condition in the words of the claim: the value under
`response.servers` is a list with at least one entry. -/
def servers_has_entries (env : SteamEnv) : Bool :=
  match extract_servers env with
  | some (.arr xs) => !xs.isEmpty
  | _ => false

/-- C7 counterexample: the claim says `is_real_game_server` returns True
exactly when the service responds successfully with at least one entry under
`response.servers`, and False for a response of unexpected shape.  The code
tests Python truthiness of the `servers` value (`if not servers:`), so a
successful response carrying the truthy non-list value 42 under
`response.servers` — no entries at all — yields True. -/
theorem is_real_game_server_nonlist_truthy_cex :
    is_real_game_server truthyServersEnv = true ∧
    servers_has_entries truthyServersEnv = false :=
  ⟨rfl, rfl⟩

/-- C7 amended: `is_real_game_server` never lets an exception of its body
reach the caller (every error becomes False), and it returns True exactly
when the transport does not fail, the status is 2xx, and the response body
holds a Python-truthy value under `response.servers` — in particular a list
with at least one entry, but also any other truthy value. -/
theorem is_real_game_server_amended (env : SteamEnv) :
    (∀ e : PyErr, steam_body env = .error e → is_real_game_server env = false) ∧
    (is_real_game_server env = true ↔
      env.transportError = false ∧ 200 ≤ env.status ∧ env.status < 300 ∧
      ∃ s, extract_servers env = some s ∧ pyTruthy s = true) := by
  constructor
  · intro e he
    simp only [is_real_game_server, he]
  · obtain ⟨te, st, jb⟩ := env
    cases te with
    | true => simp [is_real_game_server, steam_body]
    | false =>
      by_cases h1 : st < 200 ∨ 300 ≤ st
      · refine iff_of_false ?_ ?_
        · simp [is_real_game_server, steam_body, h1]
        · rintro ⟨-, hle, hlt, -⟩
          simp at hle hlt
          omega
      · have hle : 200 ≤ st := by omega
        have hlt : st < 300 := by omega
        cases jb with
        | none => simp [is_real_game_server, steam_body, extract_servers, h1]
        | some j =>
          cases hr : j.getKey "response" with
          | none => simp [is_real_game_server, steam_body, extract_servers, h1, hr]
          | some r =>
            cases hs : r.getKey "servers" with
            | none => simp [is_real_game_server, steam_body, extract_servers, h1, hr, hs]
            | some s =>
              simp [is_real_game_server, steam_body, extract_servers, h1, hr, hs, hle, hlt]

/-- C7 witness for the amended theorem: a transport failure yields False, and
the one-entry fixture response yields True. -/
theorem is_real_game_server_amended_witness :
    is_real_game_server { transportError := true, status := 200, jsonBody := none } = false ∧
    is_real_game_server fixtureSteamPos = true :=
  ⟨(is_real_game_server_amended
      { transportError := true, status := 200, jsonBody := none }).1 .transportError rfl,
   (is_real_game_server_amended fixtureSteamPos).2.mpr
     ⟨rfl, by decide, by decide,
      Json.arr [Json.obj [("name", Json.str "srv")]], rfl, rfl⟩⟩

/-- C8: when no Steam Web API key is configured, a request that passes token
validation, source binding and secret verification is accepted with zero
outbound liveness calls and with the warning logged, exactly as if the
liveness check had passed. -/
theorem check_token_skips_liveness_when_key_unset (env : CheckTokenEnv) (sub : String)
    (addr : Nat) (port : Int)
    (htok : pyFalsyToken env.token = false)
    (hdec : env.decodeResult = .ok sub)
    (hsub : parse_token_subject sub = .ok (addr, port))
    (hcli : env.client_addr = addr)
    (hdb : validate_db_token (env.sha256 (env.token.getD "")) addr port env.db = true)
    (hkey : env.steam_web_api_key = none) :
    check_token env = { result := .ok true, livenessCalls := 0,
                        warnedNoApiKey := true, ctx := some (addr, port) } := by
  simp only [check_token, htok, hdec, hsub, hcli, hdb, hkey, Bool.false_eq_true, if_false,
    ne_eq, not_true_eq_false, not_true, not_false_eq_true, if_true]

/-- C8 witness: the all-valid fixture request with the Steam Web API key
unset is accepted, makes no liveness call, and logs the warning. -/
theorem check_token_skips_liveness_when_key_unset_witness :
    check_token { fixtureEnvOk with steam_web_api_key := none }
      = { result := .ok true, livenessCalls := 0,
          warnedNoApiKey := true, ctx := some (2130706433, 7777) } :=
  check_token_skips_liveness_when_key_unset
    { fixtureEnvOk with steam_web_api_key := none }
    "127.0.0.1:7777" 2130706433 7777 rfl rfl rfl rfl rfl rfl

/-- C9: any two requests that `check_token` rejects — whichever
authentication step caused each rejection — receive the identical external
response from the `api_v1_on_request` middleware, namely the uniform
Unauthorized text response. -/
theorem rejections_externally_uniform (e1 e2 : CheckTokenEnv)
    (h1 : (check_token e1).result = .ok false)
    (h2 : (check_token e2).result = .ok false) :
    api_v1_on_request e1 = api_v1_on_request e2 ∧
    api_v1_on_request e1 = .ok (some unauthorizedResponse) := by
  unfold api_v1_on_request
  rw [h1, h2]
  exact ⟨rfl, rfl⟩

/-- C9 witness: a request with no token and a request rejected for a source
address mismatch receive the same Unauthorized response. -/
theorem rejections_externally_uniform_witness :
    api_v1_on_request { fixtureEnvOk with token := none }
      = api_v1_on_request { fixtureEnvOk with client_addr := 167772169 } ∧
    api_v1_on_request { fixtureEnvOk with token := none }
      = .ok (some unauthorizedResponse) :=
  rejections_externally_uniform
    { fixtureEnvOk with token := none }
    { fixtureEnvOk with client_addr := 167772169 } rfl rfl

/-- Credential row for 127.0.0.1:7777 whose expiry (plus the sweep leeway)
is already in the past at time 0. -/
def expiredRow : GameServerApiKey :=
  { created_at := -7200, expires_at := -600, api_key_hash := fixtureHash,
    game_server_address := 2130706433, game_server_port := 7777, name := none }

/-- C10: `validate_db_token` never consults the `expires_at` of the stored row:
a row whose expiry plus leeway has passed but which the sweep has not yet
deleted still verifies whenever the digest of the presented token equals the
stored digest — even though the same row would be removed by the sweep. -/
theorem validate_db_token_ignores_row_expiry (request_token_hash : List Nat)
    (addr : Nat) (port : Int) (db : List GameServerApiKey) (row : GameServerApiKey)
    (now leeway : Int)
    (hsel : select_game_server_api_key db addr port = some row)
    (hexpired : now > row.expires_at + leeway)
    (hhash : row.api_key_hash = request_token_hash) :
    validate_db_token request_token_hash addr port db = true ∧
    row ∉ (delete_old_api_keys db now leeway).1 := by
  constructor
  · simp [validate_db_token, hsel, compare_digest, hhash]
  · intro hmem
    simp only [delete_old_api_keys, List.mem_filter, Bool.not_eq_true',
      decide_eq_false_iff_not] at hmem
    exact hmem.2 hexpired

/-- C10 witness: the expired-but-unswept fixture row with a matching digest
still verifies at time 0 with the five-minute leeway, while the sweep at that
time would delete it. -/
theorem validate_db_token_ignores_row_expiry_witness :
    validate_db_token fixtureHash 2130706433 7777 [expiredRow] = true ∧
    expiredRow ∉ (delete_old_api_keys [expiredRow] 0 api_key_deletion_leeway).1 :=
  validate_db_token_ignores_row_expiry fixtureHash 2130706433 7777
    [expiredRow] expiredRow 0 api_key_deletion_leeway rfl (by decide) rfl

end ChatGPTProxy
